import Mathlib

/-!
# Verification of the aiotailwind controller library

A shallow embedding of `aiotailwind/tailwind.py` (a client library for the
Tailwind garage-door controller's local HTTP+JSON protocol) together with
proofs about it.

Modelling conventions:

* JSON trees are modelled by the inductive `Json`.  The device protocol's
  payloads are objects, strings, integers, booleans and null; objects keep
  their fields as an insertion-ordered association list, matching Python's
  `dict` iteration order.
* Python code that can raise is embedded with `Option`/`Except`: a lookup
  `d[k]` that would raise `KeyError` (or `TypeError` when the subscripted
  value is not a dict) becomes `none`; the envelope decoder `get_json`
  returns `Except PyErr Json`.
* The `Auth` transport collaborator and the aiohttp response object are
  external to the repository; they are modelled from the spec's interface
  description (an authenticated `request` returning a response exposing an
  HTTP status and a JSON-decoding method that validates the declared
  content type against an expected one and raises `ContentTypeError` on
  mismatch).  Commands receive the responses of their (at most two)
  round-trips as explicit arguments and return the list of outbound
  request envelopes they actually sent.
-/

/-- A JSON value as decoded from the device.  Objects are insertion-ordered
association lists, matching Python `dict` semantics.  The device protocol
(§3 of the spec) uses no arrays, so none are modelled. -/
inductive Json where
  | null : Json
  | bool (b : Bool) : Json
  | num (n : Int) : Json
  | str (s : String) : Json
  | obj (fields : List (String × Json)) : Json

namespace Json

/-- Python `d[k]` on an object: the value of the first field named `k`,
`none` when the key is absent (`KeyError`) or the value is not a dict
(`TypeError`). -/
def lookup : Json → String → Option Json
  | .obj fields, k => go fields k
  | _, _ => none
where
  go : List (String × Json) → String → Option Json
    | [], _ => none
    | (k', v) :: rest, k => if k' = k then some v else go rest k

/-- Python `k in d` on an object. -/
def hasKey (j : Json) (k : String) : Bool :=
  (j.lookup k).isSome

end Json

/-- Python equality `v == s` between a decoded JSON value and a string
literal: true exactly when `v` is that string. -/
def pyEqStr (v : Json) (s : String) : Bool :=
  match v with
  | .str t => t = s
  | _ => false

/-- Python equality `v == n` between a decoded JSON value and an integer
literal.  Python's `bool` is a subtype of `int`, so `True == 1`. -/
def pyEqInt (v : Json) (n : Int) : Bool :=
  match v with
  | .num m => m = n
  | .bool b => (if b then (1 : Int) else 0) = n
  | _ => false

/-- Python `list[:n]` for an `int` index `n`: a nonnegative `n` keeps the
first `n` elements; a negative `n` drops the last `-n`. -/
def pySliceTo (l : List α) (n : Int) : List α :=
  if 0 ≤ n then l.take n.toNat
  else l.take (l.length - (-n).toNat)

/-- Python `int`-like values usable as a slice index (`bool` counts). -/
def Json.asIndex : Json → Option Int
  | .num n => some n
  | .bool b => some (if b then 1 else 0)
  | _ => none

/-- `Door`: read-only projection over one door record of the snapshot
(`tailwind.py`, class `Door`).  The unused `Auth` back-reference is not
modelled. -/
structure Door where
  key : String
  raw_data : Json

namespace Door

/-- `Door.door_key`: the key within the doors dict for this door. -/
def door_key (d : Door) : String := d.key

/-- `Door.is_open`: `self.raw_data["status"] == "open"`;
`none` models the `KeyError` when the key is absent. -/
def is_open (d : Door) : Option Bool :=
  match d.raw_data.lookup "status" with
  | some v => some (pyEqStr v "open")
  | none => none

/-- `Door.is_enabled`: `self.raw_data["enabled"] == 1`. -/
def is_enabled (d : Door) : Option Bool :=
  match d.raw_data.lookup "enabled" with
  | some v => some (pyEqInt v 1)
  | none => none

/-- `Door.is_locked_out`: prefers the newer `lockedout` key when present,
otherwise reads `lockup`; `none` models the `KeyError` raised when both
keys are absent. -/
def is_locked_out (d : Door) : Option Bool :=
  if d.raw_data.hasKey "lockedout" then
    match d.raw_data.lookup "lockedout" with
    | some v => some (pyEqInt v 1)
    | none => none
  else
    match d.raw_data.lookup "lockup" with
    | some v => some (pyEqInt v 1)
    | none => none

end Door

/-- `Light`: read-only projection over the light record
(`tailwind.py`, class `Light`). -/
structure Light where
  raw_data : Json

namespace Light

/-- `Light.mode`: `self.raw_data["mode"]`. -/
def mode (l : Light) : Option Json :=
  l.raw_data.lookup "mode"

/-- `Light.light_power`: `self.raw_data["light"]["power"]`. -/
def light_power (l : Light) : Option Json :=
  (l.raw_data.lookup "light").bind (·.lookup "power")

/-- `Light.light_frequency`: `self.raw_data["light"]["frequency"]`. -/
def light_frequency (l : Light) : Option Json :=
  (l.raw_data.lookup "light").bind (·.lookup "frequency")

/-- `Light.motion_sensitivity`: `self.raw_data["radar"]["distance"]`. -/
def motion_sensitivity (l : Light) : Option Json :=
  (l.raw_data.lookup "radar").bind (·.lookup "distance")

/-- `Light.motion_max_lux`: `self.raw_data["radar"]["lux"]`. -/
def motion_max_lux (l : Light) : Option Json :=
  (l.raw_data.lookup "radar").bind (·.lookup "lux")

/-- `Light.motion_off_delay`: `self.raw_data["radar"]["delay"]`. -/
def motion_off_delay (l : Light) : Option Json :=
  (l.raw_data.lookup "radar").bind (·.lookup "delay")

end Light

/-- `TailwindController`: the single stateful object; its only state is the
snapshot `raw_data` (the `Auth` collaborator is external and opaque, so the
transport is passed to each command explicitly). -/
structure Controller where
  raw_data : Json

namespace Controller

/-- `TailwindController.id`: `self.raw_data["dev_id"]`. -/
def id (c : Controller) : Option Json :=
  c.raw_data.lookup "dev_id"

/-- `TailwindController.product`: `self.raw_data["product"]`. -/
def product (c : Controller) : Option Json :=
  c.raw_data.lookup "product"

/-- `TailwindController.firmware_version`: `self.raw_data["fw_ver"]`. -/
def firmware_version (c : Controller) : Option Json :=
  c.raw_data.lookup "fw_ver"

/-- `TailwindController.protocol_version`: `self.raw_data["proto_ver"]`. -/
def protocol_version (c : Controller) : Option Json :=
  c.raw_data.lookup "proto_ver"

/-- `TailwindController.num_doors`: `0` unless the product is `"iQ3"`,
otherwise the raw `door_num` field. -/
def num_doors (c : Controller) : Option Json :=
  match c.product with
  | none => none
  | some p =>
    if pyEqStr p "iQ3" = false then some (.num 0)
    else c.raw_data.lookup "door_num"

/-- `TailwindController.night_mode`: `False` unless the product is
`"iQ3"`, otherwise `night_mode_en == 1`. -/
def night_mode (c : Controller) : Option Bool :=
  match c.product with
  | none => none
  | some p =>
    if pyEqStr p "iQ3" = false then some false
    else
      match c.raw_data.lookup "night_mode_en" with
      | some v => some (pyEqInt v 1)
      | none => none

/-- `TailwindController.doors`: `[]` unless the product is `"iQ3"`,
otherwise one `Door` per entry of `raw_data["data"]` in insertion order,
sliced to `[:self.num_doors]`. -/
def doors (c : Controller) : Option (List Door) :=
  match c.product with
  | none => none
  | some p =>
    if pyEqStr p "iQ3" = false then some []
    else
      match c.raw_data.lookup "data" with
      | some (.obj fields) =>
        match c.num_doors with
        | none => none
        | some nd =>
          match nd.asIndex with
          | none => none
          | some n => some (pySliceTo (fields.map fun kv => Door.mk kv.1 kv.2) n)
      | _ => none

/-- `TailwindController.light`: Python `None` (inner `none`) unless the
product is `"light"`, otherwise a `Light` over `raw_data["data"]`; the
outer `none` models a raised `KeyError`. -/
def light (c : Controller) : Option (Option Light) :=
  match c.product with
  | none => none
  | some p =>
    if pyEqStr p "light" = false then some none
    else
      match c.raw_data.lookup "data" with
      | some d => some (some (Light.mk d))
      | none => none

end Controller

/-! ## The response envelope decoder (`TailwindController.get_json`) -/

/-- Errors a call can raise: `HttpError` from `resp.raise_for_status()`,
aiohttp's `ContentTypeError`, a JSON parse failure, a dict `KeyError` (also
covering `TypeError` on subscripting a non-dict), and the library's own
`TailwindError` carrying the device-supplied `info` value. -/
inductive PyErr where
  | HttpError (status : Nat) : PyErr
  | ContentTypeError : PyErr
  | JSONDecodeError : PyErr
  | KeyError : PyErr
  | TailwindError (info : Json) : PyErr

/-- `true` when string `pat` occurs as a substring of `s`. -/
def strContains (s pat : String) : Bool :=
  go pat.data s.data
where
  go (p : List Char) : List Char → Bool
    | [] => p.isEmpty
    | c :: rest => List.isPrefixOf p (c :: rest) || go p rest

/-- Modelled from the spec: the transport's content-type validation (§6,
the aiohttp `ClientResponse.json` contract — an external collaborator).
The default expected type `"application/json"` accepts any declared
JSON content type; any other expected type must occur in the declared
content-type header. -/
def acceptsContentType (declared expected : String) : Bool :=
  if expected = "application/json" then strContains declared "json"
  else strContains declared expected

/-- Modelled from the spec: the response object handed back by the `Auth`
collaborator (§6) — an HTTP status, the declared `Content-Type` header,
and the JSON parse of the body (`none` when the body text is not valid
JSON; an empty or `null` body parses to `Json.null`, Python `None`). -/
structure Response where
  status : Nat
  content_type : String
  body : Option Json

/-- Modelled from the spec: `resp.json(content_type=expected)` — raises
`ContentTypeError` when the declared content type does not match the
expected one, otherwise parses the body as JSON. -/
def Response.json (resp : Response) (expected : String) : Except PyErr Json :=
  if acceptsContentType resp.content_type expected then
    match resp.body with
    | some j => .ok j
    | none => .error .JSONDecodeError
  else .error .ContentTypeError

/-- The envelope checks at the end of `TailwindController.get_json`:
`None` bodies raise `TailwindError("empty response (request may be
invalid)")`, a `result` field other than `"OK"` raises
`TailwindError(raw_data["info"])`, and otherwise the full decoded
envelope is returned unchanged. -/
def checkEnvelope (raw_data : Json) : Except PyErr Json :=
  match raw_data with
  | .null => .error (.TailwindError (.str "empty response (request may be invalid)"))
  | _ =>
    match raw_data.lookup "result" with
    | none => .error .KeyError
    | some r =>
      if pyEqStr r "OK" then .ok raw_data
      else
        match raw_data.lookup "info" with
        | none => .error .KeyError
        | some v => .error (.TailwindError v)

/-- `TailwindController.get_json`: raise for a failing HTTP status up
front; try `resp.json()` with the default expected content type; on
`ContentTypeError` (and only then) retry once with
`resp.json(content_type="text/html")`; then run the envelope checks. -/
def get_json (resp : Response) : Except PyErr Json :=
  if 400 ≤ resp.status then .error (.HttpError resp.status)
  else
    match resp.json "application/json" with
    | .ok raw_data => checkEnvelope raw_data
    | .error .ContentTypeError =>
      match resp.json "text/html" with
      | .ok raw_data => checkEnvelope raw_data
      | .error e => .error e
    | .error e => .error e

/-! ## Request envelopes and command flows -/

/-- `COMMAND_OPEN`. -/
def COMMAND_OPEN : String := "open"

/-- `COMMAND_CLOSE`. -/
def COMMAND_CLOSE : String := "close"

/-- The request envelope built by `async_control_door`: `door_op` with
`door_idx` and `cmd`, plus `partial_time` appended when the command is
`"open"` and a partial time was given. -/
def doorReq (index : Int) (command : String) (pTime : Option Int) : Json :=
  .obj [("version", .str "0.1"),
        ("data", .obj [("type", .str "set"),
                       ("name", .str "door_op"),
                       ("value", .obj
                         ([("door_idx", .num index), ("cmd", .str command)] ++
                          match pTime with
                          | some t => if command = COMMAND_OPEN then [("partial_time", .num t)] else []
                          | none => []))])]

/-- The request envelope built by `async_set_status_led_brightness`. -/
def ledReq (brightness : Int) : Json :=
  .obj [("version", .str "0.1"),
        ("data", .obj [("type", .str "set"),
                       ("name", .str "status_led"),
                       ("value", .obj [("brightness", .num brightness)])])]

/-- The request envelope built by `async_update`: a `get` of `dev_st`. -/
def updateReq : Json :=
  .obj [("version", .str "0.1"),
        ("data", .obj [("type", .str "get"), ("name", .str "dev_st")])]

/-- The outcome of a command: the outbound request envelopes actually
sent, the controller state afterwards, and the raised error, if any. -/
structure CallResult where
  sent : List Json
  state : Controller
  err : Option PyErr

/-- `TailwindController.async_update`: send the `dev_st` request, decode
the response, and on success replace the whole snapshot with the full
decoded envelope; on failure the snapshot is left untouched and the
error propagates. -/
def async_update (c : Controller) (resp : Response) : CallResult :=
  match get_json resp with
  | .ok raw_data => ⟨[updateReq], ⟨raw_data⟩, none⟩
  | .error e => ⟨[updateReq], c, some e⟩

/-- `TailwindController.async_control_door`: send the `door_op` request
(first response `r1`); if its decode fails, propagate the error with no
further request; otherwise run `async_update` (second response `r2`). -/
def async_control_door (c : Controller) (index : Int) (command : String)
    (pTime : Option Int) (r1 r2 : Response) : CallResult :=
  let req := doorReq index command pTime
  match get_json r1 with
  | .error e => ⟨[req], c, some e⟩
  | .ok _ =>
    let u := async_update c r2
    ⟨req :: u.sent, u.state, u.err⟩

/-- `TailwindController.async_open_door`. -/
def async_open_door (c : Controller) (index : Int) (r1 r2 : Response) : CallResult :=
  async_control_door c index COMMAND_OPEN none r1 r2

/-- `TailwindController.async_partial_open_door`. -/
def async_partial_open_door (c : Controller) (index : Int) (pTime : Int)
    (r1 r2 : Response) : CallResult :=
  async_control_door c index COMMAND_OPEN (some pTime) r1 r2

/-- `TailwindController.async_close_door`. -/
def async_close_door (c : Controller) (index : Int) (r1 r2 : Response) : CallResult :=
  async_control_door c index COMMAND_CLOSE none r1 r2

/-- `TailwindController.async_set_status_led_brightness`: same two-step
flow as the door commands, with the `status_led` envelope. -/
def async_set_status_led_brightness (c : Controller) (brightness : Int)
    (r1 r2 : Response) : CallResult :=
  let req := ledReq brightness
  match get_json r1 with
  | .error e => ⟨[req], c, some e⟩
  | .ok _ =>
    let u := async_update c r2
    ⟨req :: u.sent, u.state, u.err⟩

/-! ## Theorems about the envelope decoder -/

/-- Helper: when the HTTP status is good, the body parsed as JSON, and the
declared content type matches either the default expected type or the
retried `text/html`, `get_json` reduces to the envelope checks on the
parsed body. -/
theorem get_json_eq_checkEnvelope (resp : Response) (j : Json)
    (hs : resp.status < 400) (hb : resp.body = some j)
    (hct : acceptsContentType resp.content_type "application/json" = true ∨
           acceptsContentType resp.content_type "text/html" = true) :
    get_json resp = checkEnvelope j := by
  unfold get_json Response.json
  rw [if_neg (by omega)]
  cases h1 : acceptsContentType resp.content_type "application/json" with
  | true => simp [h1, hb]
  | false =>
    cases hct with
    | inl h => rw [h1] at h; cases h
    | inr h => simp [h1, h, hb]

/-- Helper: when the HTTP status is good, the body parsed as JSON, and the
declared content type matches neither the default expected type nor the
retried `text/html`, `get_json` fails with `ContentTypeError`. -/
theorem get_json_content_type_mismatch (resp : Response)
    (hs : resp.status < 400)
    (h1 : acceptsContentType resp.content_type "application/json" = false)
    (h2 : acceptsContentType resp.content_type "text/html" = false) :
    get_json resp = .error .ContentTypeError := by
  unfold get_json Response.json
  rw [if_neg (by omega)]
  simp [h1, h2]

/-- C6: for every response whose HTTP status indicates failure,
`get_json` raises `HttpError` up front, whatever the content type or the
body — the status check strictly precedes body decoding. -/
theorem http_status_checked_first (resp : Response) (hs : 400 ≤ resp.status) :
    get_json resp = .error (.HttpError resp.status) := by
  unfold get_json
  rw [if_pos hs]

/-- Witness for C6: an HTTP 500 response whose body is not even valid
JSON still fails with the HTTP error, showing no decode was attempted. -/
theorem http_status_checked_first_witness :
    get_json ⟨500, "text/plain", none⟩ = .error (.HttpError 500) :=
  http_status_checked_first ⟨500, "text/plain", none⟩ (by decide)

/-- C5: for every HTTP-successful response whose decoded body is
absent/null, `get_json` fails with the protocol error
`TailwindError("empty response (request may be invalid)")` rather than
returning a value. -/
theorem empty_body_protocol_error (resp : Response)
    (hs : resp.status < 400) (hb : resp.body = some .null)
    (hct : acceptsContentType resp.content_type "application/json" = true ∨
           acceptsContentType resp.content_type "text/html" = true) :
    get_json resp =
      .error (.TailwindError (.str "empty response (request may be invalid)")) := by
  rw [get_json_eq_checkEnvelope resp .null hs hb hct]
  rfl

/-- Witness for C5: a 200 response declared `application/json` whose body
is JSON `null`. -/
theorem empty_body_protocol_error_witness :
    get_json ⟨200, "application/json", some .null⟩ =
      .error (.TailwindError (.str "empty response (request may be invalid)")) :=
  empty_body_protocol_error ⟨200, "application/json", some .null⟩
    (by decide) rfl (Or.inl (by decide))

/-- C4: for every decoded envelope whose `result` field is not `"OK"`,
`get_json` raises `TailwindError` carrying exactly the envelope's
device-supplied `info` value. -/
theorem protocol_error_carries_info (resp : Response) (j r v : Json)
    (hs : resp.status < 400) (hb : resp.body = some j)
    (hct : acceptsContentType resp.content_type "application/json" = true ∨
           acceptsContentType resp.content_type "text/html" = true)
    (hr : j.lookup "result" = some r) (hro : pyEqStr r "OK" = false)
    (hi : j.lookup "info" = some v) :
    get_json resp = .error (.TailwindError v) := by
  rw [get_json_eq_checkEnvelope resp j hs hb hct]
  cases j with
  | obj fields => simp [checkEnvelope, hr, hro, hi]
  | null => simp [Json.lookup] at hr
  | bool b => simp [Json.lookup] at hr
  | num n => simp [Json.lookup] at hr
  | str s => simp [Json.lookup] at hr

/-- Witness for C4: the body `{"result":"ERR","info":"busy"}` yields a
protocol error whose message is exactly `"busy"`. -/
theorem protocol_error_carries_info_witness :
    get_json ⟨200, "application/json",
        some (.obj [("result", .str "ERR"), ("info", .str "busy")])⟩ =
      .error (.TailwindError (.str "busy")) :=
  protocol_error_carries_info
    ⟨200, "application/json", some (.obj [("result", .str "ERR"), ("info", .str "busy")])⟩
    (.obj [("result", .str "ERR"), ("info", .str "busy")]) (.str "ERR") (.str "busy")
    (by decide) rfl (Or.inl (by decide)) rfl (by decide) rfl

/-- C8: for every well-formed envelope with `result == "OK"` delivered
with a successful HTTP status, `get_json` returns the full decoded
envelope completely unchanged — the decoder is the identity on it. -/
theorem decode_ok_identity (resp : Response) (j r : Json)
    (hs : resp.status < 400) (hb : resp.body = some j)
    (hct : acceptsContentType resp.content_type "application/json" = true ∨
           acceptsContentType resp.content_type "text/html" = true)
    (hr : j.lookup "result" = some r) (hok : pyEqStr r "OK" = true) :
    get_json resp = .ok j := by
  rw [get_json_eq_checkEnvelope resp j hs hb hct]
  cases j with
  | obj fields => simp [checkEnvelope, hr, hok]
  | null => simp [Json.lookup] at hr
  | bool b => simp [Json.lookup] at hr
  | num n => simp [Json.lookup] at hr
  | str s => simp [Json.lookup] at hr

/-- Witness for C8: a full envelope with extra fields passes through the
decoder unchanged. -/
theorem decode_ok_identity_witness :
    get_json ⟨200, "application/json",
        some (.obj [("result", .str "OK"), ("product", .str "iQ3"), ("dev_id", .num 7)])⟩ =
      .ok (.obj [("result", .str "OK"), ("product", .str "iQ3"), ("dev_id", .num 7)]) :=
  decode_ok_identity
    ⟨200, "application/json",
      some (.obj [("result", .str "OK"), ("product", .str "iQ3"), ("dev_id", .num 7)])⟩
    (.obj [("result", .str "OK"), ("product", .str "iQ3"), ("dev_id", .num 7)]) (.str "OK")
    (by decide) rfl (Or.inl (by decide)) rfl (by decide)

/-- Helper: the envelope checks return an `"OK"` envelope unchanged. -/
theorem checkEnvelope_ok (j r : Json)
    (hr : j.lookup "result" = some r) (hok : pyEqStr r "OK" = true) :
    checkEnvelope j = .ok j := by
  cases j with
  | obj fields => simp [checkEnvelope, hr, hok]
  | null => simp [Json.lookup] at hr
  | bool b => simp [Json.lookup] at hr
  | num n => simp [Json.lookup] at hr
  | str s => simp [Json.lookup] at hr

/-- Counterexample to C3: a 200 response whose declared content type is
`text/plain; charset=utf-8` has a perfectly valid JSON `"OK"` body, yet
`get_json` fails with `ContentTypeError` instead of returning the parsed
body: the single retry expects `text/html` specifically, not an
arbitrary mislabelled content type. -/
theorem content_type_quirk_counterexample :
    (⟨200, "text/plain; charset=utf-8",
        some (.obj [("result", .str "OK")])⟩ : Response).body =
      some (.obj [("result", .str "OK")]) ∧
    get_json ⟨200, "text/plain; charset=utf-8",
        some (.obj [("result", .str "OK")])⟩ =
      .error .ContentTypeError :=
  ⟨rfl,
   get_json_content_type_mismatch
     ⟨200, "text/plain; charset=utf-8", some (.obj [("result", .str "OK")])⟩
     (by decide) (by decide) (by decide)⟩

/-- C3 (amended): after an HTTP-successful response whose first JSON
decode fails the content-type check, `get_json` retries decoding exactly
once, expecting the documented mislabel `text/html`: when the declared
type matches `text/html` the parsed body is used (and an `"OK"` envelope
is returned); when the declared type matches neither a JSON type nor
`text/html`, the decode fails with `ContentTypeError` — there is no
further fallback. -/
theorem content_type_single_retry (resp : Response) (j r : Json)
    (hs : resp.status < 400) (hb : resp.body = some j)
    (h1 : acceptsContentType resp.content_type "application/json" = false) :
    (acceptsContentType resp.content_type "text/html" = true →
       j.lookup "result" = some r → pyEqStr r "OK" = true →
       get_json resp = .ok j) ∧
    (acceptsContentType resp.content_type "text/html" = false →
       get_json resp = .error .ContentTypeError) := by
  constructor
  · intro h2 hr hok
    rw [get_json_eq_checkEnvelope resp j hs hb (Or.inr h2)]
    exact checkEnvelope_ok j r hr hok
  · intro h2
    exact get_json_content_type_mismatch resp hs h1 h2

/-- Witness for C3 (amended): the `text/html` mislabel is tolerated, the
`text/plain` one is not. -/
theorem content_type_single_retry_witness :
    get_json ⟨200, "text/html", some (.obj [("result", .str "OK")])⟩ =
      .ok (.obj [("result", .str "OK")]) ∧
    get_json ⟨200, "text/plain", some (.obj [("result", .str "OK")])⟩ =
      .error .ContentTypeError :=
  ⟨(content_type_single_retry
      ⟨200, "text/html", some (.obj [("result", .str "OK")])⟩
      (.obj [("result", .str "OK")]) (.str "OK")
      (by decide) rfl (by decide)).1 (by decide) rfl (by decide),
   (content_type_single_retry
      ⟨200, "text/plain", some (.obj [("result", .str "OK")])⟩
      (.obj [("result", .str "OK")]) (.str "OK")
      (by decide) rfl (by decide)).2 (by decide)⟩

/-- C7: `is_locked_out` returns `lockedout == 1` whenever the `lockedout`
key is present (ignoring `lockup`), returns `lockup == 1` when only
`lockup` is present, and fails with a lookup error (modelled `none`)
rather than defaulting to false when both keys are absent. -/
theorem is_locked_out_key_preference (d : Door) :
    (∀ v, d.raw_data.lookup "lockedout" = some v →
       d.is_locked_out = some (pyEqInt v 1)) ∧
    (d.raw_data.lookup "lockedout" = none →
       ∀ v, d.raw_data.lookup "lockup" = some v →
         d.is_locked_out = some (pyEqInt v 1)) ∧
    (d.raw_data.lookup "lockedout" = none →
       d.raw_data.lookup "lockup" = none →
       d.is_locked_out = none) := by
  refine ⟨?_, ?_, ?_⟩
  · intro v hv
    simp [Door.is_locked_out, Json.hasKey, hv]
  · intro h0 v hv
    simp [Door.is_locked_out, Json.hasKey, h0, hv]
  · intro h0 h1
    simp [Door.is_locked_out, Json.hasKey, h0, h1]

/-- Witness for C7: `{"lockedout": 0, "lockup": 1}` yields `false`, and a
record with neither key yields the lookup error. -/
theorem is_locked_out_key_preference_witness :
    (Door.mk "door1" (.obj [("lockedout", .num 0), ("lockup", .num 1)])).is_locked_out =
      some false ∧
    (Door.mk "door1" (.obj [("enabled", .num 1)])).is_locked_out = none :=
  ⟨(is_locked_out_key_preference
      (Door.mk "door1" (.obj [("lockedout", .num 0), ("lockup", .num 1)]))).1
      (.num 0) rfl,
   (is_locked_out_key_preference
      (Door.mk "door1" (.obj [("enabled", .num 1)]))).2.2 rfl rfl⟩

/-- C9: on a controller constructed with an empty snapshot (as the demo
does before its first `async_update`), every read accessor fails with a
key-lookup error (modelled `none`) rather than returning a default. -/
theorem empty_snapshot_accessors_error :
    (Controller.mk (.obj [])).id = none ∧
    (Controller.mk (.obj [])).product = none ∧
    (Controller.mk (.obj [])).firmware_version = none ∧
    (Controller.mk (.obj [])).protocol_version = none ∧
    (Controller.mk (.obj [])).num_doors = none ∧
    (Controller.mk (.obj [])).night_mode = none ∧
    (Controller.mk (.obj [])).doors = none ∧
    (Controller.mk (.obj [])).light = none :=
  ⟨rfl, rfl, rfl, rfl, rfl, rfl, rfl, rfl⟩

/-- C2: for snapshots whose `product` is not `"iQ3"`, `num_doors` is `0`,
`doors` is `[]` and `night_mode` is `false`; for `"iQ3"` snapshots with
`door_num == N`, `doors` has length `min N (len data)` and its i-th
element's `door_key` is the i-th key of `data` in insertion order. -/
theorem doors_accessors_by_product (c : Controller) :
    (∀ p, c.product = some p → pyEqStr p "iQ3" = false →
       c.num_doors = some (.num 0) ∧ c.doors = some [] ∧
       c.night_mode = some false) ∧
    (∀ (N : Nat) (fs : List (String × Json)),
       c.product = some (.str "iQ3") →
       c.raw_data.lookup "door_num" = some (.num (N : Int)) →
       c.raw_data.lookup "data" = some (.obj fs) →
       ∃ ds, c.doors = some ds ∧
         ds.length = min N fs.length ∧
         ∀ (i : Nat) (hd : i < ds.length) (hf : i < fs.length),
           (ds.get ⟨i, hd⟩).door_key = (fs.get ⟨i, hf⟩).1) := by
  constructor
  · intro p hp hne
    refine ⟨?_, ?_, ?_⟩
    · simp [Controller.num_doors, hp, hne]
    · simp [Controller.doors, hp, hne]
    · simp [Controller.night_mode, hp, hne]
  · intro N fs hp hdn hdata
    refine ⟨(fs.map fun kv => Door.mk kv.1 kv.2).take N, ?_, ?_, ?_⟩
    · simp [Controller.doors, Controller.num_doors, hp, hdn, hdata, pyEqStr,
        Json.asIndex, pySliceTo]
    · simp [List.length_take, List.length_map]
    · intro i hd hf
      simp [List.get_eq_getElem, List.getElem_take, List.getElem_map, Door.door_key]

/-- Witness for C2: an `"iQ3"` snapshot claiming 2 doors while `data`
holds 3 records yields the first two door keys in order; a `"light"`
snapshot yields the zero-value defaults. -/
theorem doors_accessors_by_product_witness :
    (∃ ds,
      (Controller.mk (.obj [("product", .str "iQ3"), ("door_num", .num 2),
          ("data", .obj [("door1", .obj []), ("door2", .obj []),
                         ("door3", .obj [])])])).doors = some ds ∧
      ds.length = min 2 3 ∧
      ∀ (i : Nat) (hd : i < ds.length)
        (hf : i < [("door1", Json.obj []), ("door2", Json.obj []),
                   ("door3", Json.obj [])].length),
        (ds.get ⟨i, hd⟩).door_key =
          ([("door1", Json.obj []), ("door2", Json.obj []),
            ("door3", Json.obj [])].get ⟨i, hf⟩).1) ∧
    ((Controller.mk (.obj [("product", .str "light")])).num_doors =
        some (.num 0) ∧
     (Controller.mk (.obj [("product", .str "light")])).doors = some [] ∧
     (Controller.mk (.obj [("product", .str "light")])).night_mode =
        some false) :=
  ⟨(doors_accessors_by_product
      (Controller.mk (.obj [("product", .str "iQ3"), ("door_num", .num 2),
          ("data", .obj [("door1", .obj []), ("door2", .obj []),
                         ("door3", .obj [])])]))).2 2
      [("door1", .obj []), ("door2", .obj []), ("door3", .obj [])]
      rfl rfl rfl,
   (doors_accessors_by_product
      (Controller.mk (.obj [("product", .str "light")]))).1
      (.str "light") rfl (by decide)⟩

/-- C1: on the two-round-trip flow of each command (`async_open_door`,
`async_partial_open_door`, `async_close_door`,
`async_set_status_led_brightness`): when both round-trips decode
successfully, exactly two requests go out (the command envelope, then the
`dev_st` update envelope) and the snapshot becomes the second response's
full decoded envelope; when the command round-trip fails, exactly one
request goes out, the error propagates, and the snapshot is unchanged. -/
theorem command_flow_requests_and_snapshot (c : Controller)
    (index pTime brightness : Int) (r1 r2 : Response) :
    (∀ j1 j2, get_json r1 = .ok j1 → get_json r2 = .ok j2 →
       async_open_door c index r1 r2 =
         ⟨[doorReq index COMMAND_OPEN none, updateReq], ⟨j2⟩, none⟩ ∧
       async_partial_open_door c index pTime r1 r2 =
         ⟨[doorReq index COMMAND_OPEN (some pTime), updateReq], ⟨j2⟩, none⟩ ∧
       async_close_door c index r1 r2 =
         ⟨[doorReq index COMMAND_CLOSE none, updateReq], ⟨j2⟩, none⟩ ∧
       async_set_status_led_brightness c brightness r1 r2 =
         ⟨[ledReq brightness, updateReq], ⟨j2⟩, none⟩) ∧
    (∀ e, get_json r1 = .error e →
       async_open_door c index r1 r2 =
         ⟨[doorReq index COMMAND_OPEN none], c, some e⟩ ∧
       async_partial_open_door c index pTime r1 r2 =
         ⟨[doorReq index COMMAND_OPEN (some pTime)], c, some e⟩ ∧
       async_close_door c index r1 r2 =
         ⟨[doorReq index COMMAND_CLOSE none], c, some e⟩ ∧
       async_set_status_led_brightness c brightness r1 r2 =
         ⟨[ledReq brightness], c, some e⟩) := by
  constructor
  · intro j1 j2 h1 h2
    refine ⟨?_, ?_, ?_, ?_⟩ <;>
      simp [async_open_door, async_partial_open_door, async_close_door,
        async_set_status_led_brightness, async_control_door, async_update, h1, h2]
  · intro e h1
    refine ⟨?_, ?_, ?_, ?_⟩ <;>
      simp [async_open_door, async_partial_open_door, async_close_door,
        async_set_status_led_brightness, async_control_door, async_update, h1]

/-- Witness for C1: a concrete `"OK"` envelope flows through both
round-trips of each command (two requests, snapshot replaced), and a
concrete HTTP 500 on the command round-trip stops after one request with
the snapshot untouched. -/
theorem command_flow_requests_and_snapshot_witness :
    (async_open_door (Controller.mk (.obj []))
        0 ⟨200, "application/json", some (.obj [("result", .str "OK"), ("dev_id", .num 7)])⟩
          ⟨200, "application/json", some (.obj [("result", .str "OK"), ("dev_id", .num 7)])⟩ =
       ⟨[doorReq 0 COMMAND_OPEN none, updateReq],
        ⟨.obj [("result", .str "OK"), ("dev_id", .num 7)]⟩, none⟩ ∧
     async_partial_open_door (Controller.mk (.obj []))
        0 1500 ⟨200, "application/json", some (.obj [("result", .str "OK"), ("dev_id", .num 7)])⟩
          ⟨200, "application/json", some (.obj [("result", .str "OK"), ("dev_id", .num 7)])⟩ =
       ⟨[doorReq 0 COMMAND_OPEN (some 1500), updateReq],
        ⟨.obj [("result", .str "OK"), ("dev_id", .num 7)]⟩, none⟩ ∧
     async_close_door (Controller.mk (.obj []))
        0 ⟨200, "application/json", some (.obj [("result", .str "OK"), ("dev_id", .num 7)])⟩
          ⟨200, "application/json", some (.obj [("result", .str "OK"), ("dev_id", .num 7)])⟩ =
       ⟨[doorReq 0 COMMAND_CLOSE none, updateReq],
        ⟨.obj [("result", .str "OK"), ("dev_id", .num 7)]⟩, none⟩ ∧
     async_set_status_led_brightness (Controller.mk (.obj []))
        50 ⟨200, "application/json", some (.obj [("result", .str "OK"), ("dev_id", .num 7)])⟩
          ⟨200, "application/json", some (.obj [("result", .str "OK"), ("dev_id", .num 7)])⟩ =
       ⟨[ledReq 50, updateReq],
        ⟨.obj [("result", .str "OK"), ("dev_id", .num 7)]⟩, none⟩) ∧
    (async_open_door (Controller.mk (.obj []))
        0 ⟨500, "application/json", none⟩
          ⟨200, "application/json", some (.obj [("result", .str "OK"), ("dev_id", .num 7)])⟩ =
       ⟨[doorReq 0 COMMAND_OPEN none], Controller.mk (.obj []), some (.HttpError 500)⟩ ∧
     async_partial_open_door (Controller.mk (.obj []))
        0 1500 ⟨500, "application/json", none⟩
          ⟨200, "application/json", some (.obj [("result", .str "OK"), ("dev_id", .num 7)])⟩ =
       ⟨[doorReq 0 COMMAND_OPEN (some 1500)], Controller.mk (.obj []), some (.HttpError 500)⟩ ∧
     async_close_door (Controller.mk (.obj []))
        0 ⟨500, "application/json", none⟩
          ⟨200, "application/json", some (.obj [("result", .str "OK"), ("dev_id", .num 7)])⟩ =
       ⟨[doorReq 0 COMMAND_CLOSE none], Controller.mk (.obj []), some (.HttpError 500)⟩ ∧
     async_set_status_led_brightness (Controller.mk (.obj []))
        50 ⟨500, "application/json", none⟩
          ⟨200, "application/json", some (.obj [("result", .str "OK"), ("dev_id", .num 7)])⟩ =
       ⟨[ledReq 50], Controller.mk (.obj []), some (.HttpError 500)⟩) :=
  ⟨(command_flow_requests_and_snapshot (Controller.mk (.obj [])) 0 1500 50
      ⟨200, "application/json", some (.obj [("result", .str "OK"), ("dev_id", .num 7)])⟩
      ⟨200, "application/json", some (.obj [("result", .str "OK"), ("dev_id", .num 7)])⟩).1
      (.obj [("result", .str "OK"), ("dev_id", .num 7)])
      (.obj [("result", .str "OK"), ("dev_id", .num 7)]) rfl rfl,
   (command_flow_requests_and_snapshot (Controller.mk (.obj [])) 0 1500 50
      ⟨500, "application/json", none⟩
      ⟨200, "application/json", some (.obj [("result", .str "OK"), ("dev_id", .num 7)])⟩).2
      (.HttpError 500) rfl⟩

/-!
## A heap model of snapshot replacement (for the projection-insulation
property)

Door/Light projections hold Python references into the object graph of
the snapshot current at their construction.  `async_update` rebinds
`self.raw_data` to the freshly decoded response — a brand-new object
tree built by `resp.json()` — and never writes into the old tree.  To
state this aliasing fact we model the Python object graph explicitly:
dict objects live on a `Heap` in allocation order, values (`HVal`) are
scalars or references to dict cells, and decoding allocates fresh cells
only at the end of the heap.
-/

/-- A heap value: a JSON scalar, or a reference to a dict cell. -/
inductive HVal where
  | null : HVal
  | bool (b : Bool) : HVal
  | num (n : Int) : HVal
  | str (s : String) : HVal
  | ref (a : Nat) : HVal

/-- The Python object heap: dict cells, indexed by allocation order. -/
structure Heap where
  cells : List (List (String × HVal))

/-- The dict cell at address `a` (the empty dict off the end). -/
def Heap.cellAt (h : Heap) (a : Nat) : List (String × HVal) :=
  h.cells.getD a []

mutual

/-- Allocation of a freshly decoded JSON tree onto the heap: every call
to `resp.json()` builds brand-new dict objects, so each object of the
tree is appended as a new cell; existing cells are never written. -/
def allocJson : Json → Heap → HVal × Heap
  | .null, h => (.null, h)
  | .bool b, h => (.bool b, h)
  | .num n, h => (.num n, h)
  | .str s, h => (.str s, h)
  | .obj fs, h =>
    let p := allocFields fs h
    (.ref p.2.cells.length, ⟨p.2.cells ++ [p.1]⟩)

/-- Allocate every value of an object's field list, left to right. -/
def allocFields : List (String × Json) → Heap → List (String × HVal) × Heap
  | [], h => ([], h)
  | (k, v) :: rest, h =>
    let p := allocJson v h
    let q := allocFields rest p.2
    ((k, p.1) :: q.1, q.2)

end

/-- Read back the JSON tree rooted at a heap value; `fuel` bounds the
dereference depth (on well-formed heaps any `fuel` no less than the heap
size is enough, see `matVal_fuel`). -/
def matVal (h : Heap) : Nat → HVal → Json
  | _, .null => .null
  | _, .bool b => .bool b
  | _, .num n => .num n
  | _, .str s => .str s
  | 0, .ref _ => .null
  | fuel + 1, .ref a => .obj ((h.cellAt a).map fun kv => (kv.1, matVal h fuel kv.2))

/-- Every reference of the value points strictly below `n`. -/
def HVal.refLt (v : HVal) (n : Nat) : Prop :=
  ∀ a, v = .ref a → a < n

/-- Well-formed heap: every reference stored in a cell points to a cell
allocated strictly earlier, as allocation order guarantees. -/
def Heap.wf (h : Heap) : Prop :=
  ∀ a kv, kv ∈ h.cellAt a → HVal.refLt kv.2 a

mutual

/-- Allocation only appends cells; it never touches existing ones. -/
theorem allocJson_cells (j : Json) (h : Heap) :
    ∃ ext, ((allocJson j h).2).cells = h.cells ++ ext := by
  cases j with
  | null => exact ⟨[], by simp [allocJson]⟩
  | bool b => exact ⟨[], by simp [allocJson]⟩
  | num n => exact ⟨[], by simp [allocJson]⟩
  | str s => exact ⟨[], by simp [allocJson]⟩
  | obj fs =>
    obtain ⟨ext, he⟩ := allocFields_cells fs h
    exact ⟨ext ++ [(allocFields fs h).1], by simp [allocJson, he]⟩

/-- Field allocation only appends cells. -/
theorem allocFields_cells (fs : List (String × Json)) (h : Heap) :
    ∃ ext, ((allocFields fs h).2).cells = h.cells ++ ext := by
  cases fs with
  | nil => exact ⟨[], by simp [allocFields]⟩
  | cons kv rest =>
    obtain ⟨e1, h1⟩ := allocJson_cells kv.2 h
    obtain ⟨e2, h2⟩ := allocFields_cells rest (allocJson kv.2 h).2
    exact ⟨e1 ++ e2, by simp [allocFields, h2, h1]⟩

end

/-- Reading below the old heap bound is unaffected by appended cells. -/
theorem matVal_append (h h' : Heap) (ext : List (List (String × HVal)))
    (hc : h'.cells = h.cells ++ ext) (hwf : h.wf) :
    ∀ (fuel : Nat) (v : HVal), HVal.refLt v h.cells.length →
      matVal h' fuel v = matVal h fuel v := by
  intro fuel
  induction fuel with
  | zero => intro v hv; cases v <;> rfl
  | succ fuel ih =>
    intro v hv
    cases v with
    | null => rfl
    | bool b => rfl
    | num n => rfl
    | str s => rfl
    | ref a =>
      have ha : a < h.cells.length := hv a rfl
      have hcell : h'.cellAt a = h.cellAt a := by
        simp only [Heap.cellAt, hc]
        exact List.getD_append h.cells ext [] a ha
      simp only [matVal, hcell]
      congr 1
      apply List.map_congr_left
      intro kv hkv
      have hlt : HVal.refLt kv.2 a := hwf a kv hkv
      have : matVal h' fuel kv.2 = matVal h fuel kv.2 :=
        ih kv.2 (fun b hb => lt_trans (hlt b hb) ha)
      rw [this]

/-- On a well-formed heap, any fuel at least the reference bound reads
the same tree. -/
theorem matVal_fuel (h : Heap) (hwf : h.wf) :
    ∀ (n fuel1 fuel2 : Nat) (v : HVal), HVal.refLt v n →
      n ≤ fuel1 → n ≤ fuel2 → matVal h fuel1 v = matVal h fuel2 v := by
  intro n
  induction n using Nat.strong_induction_on with
  | _ n ih =>
    intro fuel1 fuel2 v hv h1 h2
    cases v with
    | null => cases fuel1 <;> cases fuel2 <;> rfl
    | bool b => cases fuel1 <;> cases fuel2 <;> rfl
    | num m => cases fuel1 <;> cases fuel2 <;> rfl
    | str s => cases fuel1 <;> cases fuel2 <;> rfl
    | ref a =>
      have ha : a < n := hv a rfl
      cases fuel1 with
      | zero => omega
      | succ f1 =>
        cases fuel2 with
        | zero => omega
        | succ f2 =>
          simp only [matVal]
          congr 1
          apply List.map_congr_left
          intro kv hkv
          have hlt : HVal.refLt kv.2 a := hwf a kv hkv
          have : matVal h f1 kv.2 = matVal h f2 kv.2 :=
            ih a ha f1 f2 kv.2 hlt (by omega) (by omega)
          rw [this]

/-- References below a bound stay below any larger bound. -/
theorem HVal.refLt_mono {v : HVal} {n m : Nat}
    (hv : HVal.refLt v n) (hnm : n ≤ m) : HVal.refLt v m :=
  fun a ha => lt_of_lt_of_le (hv a ha) hnm

mutual

/-- Allocation preserves well-formedness, and the allocated root's
references lie within the new heap. -/
theorem allocJson_wf (j : Json) (h : Heap) (hwf : h.wf) :
    ((allocJson j h).2).wf ∧
      HVal.refLt (allocJson j h).1 ((allocJson j h).2).cells.length := by
  cases j with
  | null => exact ⟨hwf, fun a ha => by cases ha⟩
  | bool b => exact ⟨hwf, fun a ha => by cases ha⟩
  | num n => exact ⟨hwf, fun a ha => by cases ha⟩
  | str s => exact ⟨hwf, fun a ha => by cases ha⟩
  | obj fs =>
    obtain ⟨hwf2, hflds⟩ := allocFields_wf fs h hwf
    simp only [allocJson]
    constructor
    · intro a kv hkv
      simp only [Heap.cellAt] at hkv
      rcases Nat.lt_or_ge a (allocFields fs h).2.cells.length with hlt | hge
      · rw [List.getD_append _ _ _ _ hlt] at hkv
        exact hwf2 a kv hkv
      · rcases Nat.lt_or_ge a ((allocFields fs h).2.cells.length + 1) with hlt1 | hge1
        · have heq : a = (allocFields fs h).2.cells.length := by omega
          rw [List.getD_append_right _ _ _ _ hge] at hkv
          rw [heq, Nat.sub_self] at hkv
          simp only [List.getD] at hkv
          have := hflds kv (by simpa using hkv)
          rw [heq]
          exact this
        · rw [List.getD_eq_default] at hkv
          · cases hkv
          · simp only [List.length_append, List.length_singleton]
            omega
    · intro b hb
      injection hb with hb'
      simp only [List.length_append, List.length_singleton]
      omega

/-- Field allocation preserves well-formedness, and every allocated
field value's references lie within the new heap. -/
theorem allocFields_wf (fs : List (String × Json)) (h : Heap) (hwf : h.wf) :
    ((allocFields fs h).2).wf ∧
      ∀ kv ∈ (allocFields fs h).1,
        HVal.refLt kv.2 ((allocFields fs h).2).cells.length := by
  cases fs with
  | nil => exact ⟨hwf, by intro kv hkv; cases hkv⟩
  | cons kv rest =>
    obtain ⟨hwf1, hroot⟩ := allocJson_wf kv.2 h hwf
    obtain ⟨hwf2, hrest⟩ := allocFields_wf rest (allocJson kv.2 h).2 hwf1
    obtain ⟨ext, hext⟩ := allocFields_cells rest (allocJson kv.2 h).2
    simp only [allocFields]
    refine ⟨hwf2, ?_⟩
    intro kv' hkv'
    rcases List.mem_cons.mp hkv' with heq | hmem
    · subst heq
      refine HVal.refLt_mono hroot ?_
      rw [hext]
      simp
    · exact hrest kv' hmem

end

/-- Reading any value rooted in the old heap yields the same tree after
cells are appended (each read uses its own heap's size as fuel). -/
theorem matVal_stable (h h' : Heap) (ext : List (List (String × HVal)))
    (hc : h'.cells = h.cells ++ ext) (hwf : h.wf) (hwf' : h'.wf)
    (v : HVal) (hv : HVal.refLt v h.cells.length) :
    matVal h' h'.cells.length v = matVal h h.cells.length v := by
  have hlen : h.cells.length ≤ h'.cells.length := by
    rw [hc]; simp
  have h1 : matVal h' h'.cells.length v = matVal h' h.cells.length v :=
    matVal_fuel h' hwf' h.cells.length h'.cells.length h.cells.length v hv hlen
      (le_refl _)
  rw [h1]
  exact matVal_append h h' ext hc hwf h.cells.length v hv

/-- A door projection as Python holds it: the door key plus a reference
into the heap to the door's record object (`Door.__init__` stores the
record reference, not a copy of the controller). -/
structure DoorRef where
  key : String
  root : HVal

/-- The record tree a heap door projection currently sees. -/
def DoorRef.raw (h : Heap) (d : DoorRef) : Json :=
  matVal h h.cells.length d.root

/-- `Door.is_open`, read through the heap. -/
def DoorRef.is_open (h : Heap) (d : DoorRef) : Option Bool :=
  Door.is_open ⟨d.key, d.raw h⟩

/-- `Door.is_enabled`, read through the heap. -/
def DoorRef.is_enabled (h : Heap) (d : DoorRef) : Option Bool :=
  Door.is_enabled ⟨d.key, d.raw h⟩

/-- `Door.is_locked_out`, read through the heap. -/
def DoorRef.is_locked_out (h : Heap) (d : DoorRef) : Option Bool :=
  Door.is_locked_out ⟨d.key, d.raw h⟩

/-- A light projection as Python holds it: a reference into the heap to
the light record object. -/
structure LightRef where
  root : HVal

/-- The record tree a heap light projection currently sees. -/
def LightRef.raw (h : Heap) (l : LightRef) : Json :=
  matVal h h.cells.length l.root

/-- `Light.mode`, read through the heap. -/
def LightRef.mode (h : Heap) (l : LightRef) : Option Json :=
  Light.mode ⟨l.raw h⟩

/-- `Light.light_power`, read through the heap. -/
def LightRef.light_power (h : Heap) (l : LightRef) : Option Json :=
  Light.light_power ⟨l.raw h⟩

/-- `Light.light_frequency`, read through the heap. -/
def LightRef.light_frequency (h : Heap) (l : LightRef) : Option Json :=
  Light.light_frequency ⟨l.raw h⟩

/-- `Light.motion_sensitivity`, read through the heap. -/
def LightRef.motion_sensitivity (h : Heap) (l : LightRef) : Option Json :=
  Light.motion_sensitivity ⟨l.raw h⟩

/-- `Light.motion_max_lux`, read through the heap. -/
def LightRef.motion_max_lux (h : Heap) (l : LightRef) : Option Json :=
  Light.motion_max_lux ⟨l.raw h⟩

/-- `Light.motion_off_delay`, read through the heap. -/
def LightRef.motion_off_delay (h : Heap) (l : LightRef) : Option Json :=
  Light.motion_off_delay ⟨l.raw h⟩

/-- `async_update` on the object heap: on a successful decode the fresh
envelope tree is allocated (appending cells only) and the controller's
snapshot reference is rebound wholesale to the new root; no existing
cell is ever written.  On failure everything is untouched. -/
def async_updateH (root : HVal) (h : Heap) (resp : Response) :
    HVal × Heap × Option PyErr :=
  match get_json resp with
  | .ok j =>
    let p := allocJson j h
    (p.1, p.2, none)
  | .error e => (root, h, some e)

/-- `async_control_door` on the object heap: a failed command decode
leaves everything untouched; on success the command's decoded envelope
is allocated and immediately dropped (the code discards it) and the
update round-trip runs. -/
def async_control_doorH (root : HVal) (h : Heap) (r1 r2 : Response) :
    HVal × Heap × Option PyErr :=
  match get_json r1 with
  | .error e => (root, h, some e)
  | .ok j1 => async_updateH root (allocJson j1 h).2 r2

/-- The update step only appends heap cells and preserves
well-formedness. -/
theorem async_updateH_heap (root : HVal) (h : Heap) (resp : Response)
    (hwf : h.wf) :
    ∃ ext, (async_updateH root h resp).2.1.cells = h.cells ++ ext ∧
      (async_updateH root h resp).2.1.wf := by
  cases hg : get_json resp with
  | ok j =>
    obtain ⟨ext, he⟩ := allocJson_cells j h
    exact ⟨ext, by simp [async_updateH, hg, he], by
      simp only [async_updateH, hg]
      exact (allocJson_wf j h hwf).1⟩
  | error e => exact ⟨[], by simp [async_updateH, hg], by
      simp only [async_updateH, hg]
      exact hwf⟩

/-- The command step only appends heap cells and preserves
well-formedness. -/
theorem async_control_doorH_heap (root : HVal) (h : Heap)
    (r1 r2 : Response) (hwf : h.wf) :
    ∃ ext, (async_control_doorH root h r1 r2).2.1.cells = h.cells ++ ext ∧
      (async_control_doorH root h r1 r2).2.1.wf := by
  cases hg : get_json r1 with
  | error e => exact ⟨[], by simp [async_control_doorH, hg], by
      simp only [async_control_doorH, hg]
      exact hwf⟩
  | ok j1 =>
    obtain ⟨e1, he1⟩ := allocJson_cells j1 h
    have hwf1 : ((allocJson j1 h).2).wf := (allocJson_wf j1 h hwf).1
    obtain ⟨e2, he2, hwf2⟩ := async_updateH_heap root (allocJson j1 h).2 r2 hwf1
    refine ⟨e1 ++ e2, ?_, ?_⟩
    · simp only [async_control_doorH, hg]
      rw [he2, he1, List.append_assoc]
    · simp only [async_control_doorH, hg]
      exact hwf2

/-- Scalar heap value (no reference). -/
def HVal.isScalar : HVal → Bool
  | .ref _ => false
  | _ => true

/-- A heap whose single cell holds only scalars is well-formed. -/
theorem Heap.wf_singleton (cell : List (String × HVal))
    (hs : ∀ kv ∈ cell, HVal.isScalar kv.2 = true) : Heap.wf ⟨[cell]⟩ := by
  intro a kv hkv b hb
  cases a with
  | zero =>
    simp only [Heap.cellAt, List.getD_cons_zero] at hkv
    have := hs kv hkv
    rw [hb] at this
    simp [HVal.isScalar] at this
  | succ n =>
    simp only [Heap.cellAt] at hkv
    rw [List.getD_eq_default] at hkv
    · cases hkv
    · simp

/-- A reference below `n` satisfies the bound. -/
theorem HVal.refLt_ref {a n : Nat} (h : a < n) : HVal.refLt (.ref a) n := by
  intro b hb
  injection hb with hb'
  omega

/-- C10: Door and Light projections are insulated from snapshot
replacement.  `async_update` and the command flow rebind the
controller's snapshot root to a freshly allocated tree and never write
an existing heap cell, so a projection constructed before the call — any
`DoorRef`/`LightRef` whose record lives on the pre-call heap — sees the
same record tree afterwards, and every one of its accessors returns the
same value as before. -/
theorem projection_frame_after_update (h : Heap) (hwf : h.wf)
    (d : DoorRef) (hd : HVal.refLt d.root h.cells.length)
    (l : LightRef) (hl : HVal.refLt l.root h.cells.length)
    (root : HVal) (resp r1 r2 : Response) :
    (∀ root' h' err, async_updateH root h resp = (root', h', err) →
       DoorRef.raw h' d = DoorRef.raw h d ∧
       DoorRef.is_open h' d = DoorRef.is_open h d ∧
       DoorRef.is_enabled h' d = DoorRef.is_enabled h d ∧
       DoorRef.is_locked_out h' d = DoorRef.is_locked_out h d ∧
       LightRef.raw h' l = LightRef.raw h l ∧
       LightRef.mode h' l = LightRef.mode h l ∧
       LightRef.light_power h' l = LightRef.light_power h l ∧
       LightRef.light_frequency h' l = LightRef.light_frequency h l ∧
       LightRef.motion_sensitivity h' l = LightRef.motion_sensitivity h l ∧
       LightRef.motion_max_lux h' l = LightRef.motion_max_lux h l ∧
       LightRef.motion_off_delay h' l = LightRef.motion_off_delay h l) ∧
    (∀ root' h' err, async_control_doorH root h r1 r2 = (root', h', err) →
       DoorRef.raw h' d = DoorRef.raw h d ∧
       DoorRef.is_open h' d = DoorRef.is_open h d ∧
       DoorRef.is_enabled h' d = DoorRef.is_enabled h d ∧
       DoorRef.is_locked_out h' d = DoorRef.is_locked_out h d ∧
       LightRef.raw h' l = LightRef.raw h l ∧
       LightRef.mode h' l = LightRef.mode h l ∧
       LightRef.light_power h' l = LightRef.light_power h l ∧
       LightRef.light_frequency h' l = LightRef.light_frequency h l ∧
       LightRef.motion_sensitivity h' l = LightRef.motion_sensitivity h l ∧
       LightRef.motion_max_lux h' l = LightRef.motion_max_lux h l ∧
       LightRef.motion_off_delay h' l = LightRef.motion_off_delay h l) := by
  constructor
  · intro root' h' err hstep
    obtain ⟨ext, hc, hwf'⟩ := async_updateH_heap root h resp hwf
    rw [hstep] at hc hwf'
    have hdraw : DoorRef.raw h' d = DoorRef.raw h d :=
      matVal_stable h h' ext hc hwf hwf' d.root hd
    have hlraw : LightRef.raw h' l = LightRef.raw h l :=
      matVal_stable h h' ext hc hwf hwf' l.root hl
    exact ⟨hdraw, by simp [DoorRef.is_open, hdraw],
      by simp [DoorRef.is_enabled, hdraw],
      by simp [DoorRef.is_locked_out, hdraw], hlraw,
      by simp [LightRef.mode, hlraw],
      by simp [LightRef.light_power, hlraw],
      by simp [LightRef.light_frequency, hlraw],
      by simp [LightRef.motion_sensitivity, hlraw],
      by simp [LightRef.motion_max_lux, hlraw],
      by simp [LightRef.motion_off_delay, hlraw]⟩
  · intro root' h' err hstep
    obtain ⟨ext, hc, hwf'⟩ := async_control_doorH_heap root h r1 r2 hwf
    rw [hstep] at hc hwf'
    have hdraw : DoorRef.raw h' d = DoorRef.raw h d :=
      matVal_stable h h' ext hc hwf hwf' d.root hd
    have hlraw : LightRef.raw h' l = LightRef.raw h l :=
      matVal_stable h h' ext hc hwf hwf' l.root hl
    exact ⟨hdraw, by simp [DoorRef.is_open, hdraw],
      by simp [DoorRef.is_enabled, hdraw],
      by simp [DoorRef.is_locked_out, hdraw], hlraw,
      by simp [LightRef.mode, hlraw],
      by simp [LightRef.light_power, hlraw],
      by simp [LightRef.light_frequency, hlraw],
      by simp [LightRef.motion_sensitivity, hlraw],
      by simp [LightRef.motion_max_lux, hlraw],
      by simp [LightRef.motion_off_delay, hlraw]⟩

/-- Witness for C10: a door/light projection over the pre-update heap's
only cell reads the same record after a concrete `async_update` (which
appends the decoded envelope's cell) and after a concrete command flow
(which appends two cells). -/
theorem projection_frame_after_update_witness :
    DoorRef.raw
        ⟨[[("status", .str "open"), ("enabled", .num 1), ("lockedout", .num 0)],
          [("result", .str "OK"), ("dev_id", .num 7)]]⟩
        ⟨"door1", .ref 0⟩ =
      DoorRef.raw
        ⟨[[("status", .str "open"), ("enabled", .num 1), ("lockedout", .num 0)]]⟩
        ⟨"door1", .ref 0⟩ ∧
    DoorRef.is_locked_out
        ⟨[[("status", .str "open"), ("enabled", .num 1), ("lockedout", .num 0)],
          [("result", .str "OK"), ("dev_id", .num 7)],
          [("result", .str "OK"), ("dev_id", .num 7)]]⟩
        ⟨"door1", .ref 0⟩ =
      DoorRef.is_locked_out
        ⟨[[("status", .str "open"), ("enabled", .num 1), ("lockedout", .num 0)]]⟩
        ⟨"door1", .ref 0⟩ :=
  ⟨((projection_frame_after_update
      ⟨[[("status", .str "open"), ("enabled", .num 1), ("lockedout", .num 0)]]⟩
      (Heap.wf_singleton _ (by decide))
      ⟨"door1", .ref 0⟩ (HVal.refLt_ref (by decide))
      ⟨.ref 0⟩ (HVal.refLt_ref (by decide))
      (.ref 0)
      ⟨200, "application/json", some (.obj [("result", .str "OK"), ("dev_id", .num 7)])⟩
      ⟨200, "application/json", some (.obj [("result", .str "OK"), ("dev_id", .num 7)])⟩
      ⟨200, "application/json", some (.obj [("result", .str "OK"), ("dev_id", .num 7)])⟩).1
      (.ref 1)
      ⟨[[("status", .str "open"), ("enabled", .num 1), ("lockedout", .num 0)],
        [("result", .str "OK"), ("dev_id", .num 7)]]⟩
      none rfl).1,
   (((projection_frame_after_update
      ⟨[[("status", .str "open"), ("enabled", .num 1), ("lockedout", .num 0)]]⟩
      (Heap.wf_singleton _ (by decide))
      ⟨"door1", .ref 0⟩ (HVal.refLt_ref (by decide))
      ⟨.ref 0⟩ (HVal.refLt_ref (by decide))
      (.ref 0)
      ⟨200, "application/json", some (.obj [("result", .str "OK"), ("dev_id", .num 7)])⟩
      ⟨200, "application/json", some (.obj [("result", .str "OK"), ("dev_id", .num 7)])⟩
      ⟨200, "application/json", some (.obj [("result", .str "OK"), ("dev_id", .num 7)])⟩).2
      (.ref 2)
      ⟨[[("status", .str "open"), ("enabled", .num 1), ("lockedout", .num 0)],
        [("result", .str "OK"), ("dev_id", .num 7)],
        [("result", .str "OK"), ("dev_id", .num 7)]]⟩
      none rfl).2.2.2.1)⟩
